import Mathlib

/-!
Verification of the estate-rag-assistant document pipeline.

This file gives a shallow embedding, in Lean, of the pure logic of the
repository:
  - `utils/file_io.py` (supported extensions),
  - `src/document_ingestion/data_ingestion.py`
    (`EstateDocHandler.save_pdf`, `EstateDocHandler.read_pdf`,
     `EstateDocumentIngestion.save_uploaded_files`,
     `EstateDocumentIngestion.read_pdf`,
     `EstateDocumentIngestion.combine_documents`),
  - `utils/model_loader.py` (`ApiKeyManager._load_api_keys`,
    `ModelLoader.load_llm`),
  - `src/document_compare/document_comparator.py`
    (`EstateDocumentComparatorLLM.compare_documents`),
and proves the testable properties of the design document against it.

Python exceptions are embedded as an error type carried by `Except`;
filesystem writes are explicit state passing on an association list;
the PyMuPDF (`fitz`) surface the code touches is modelled by a document
record with an encryption flag and a page list.
-/

deriving instance DecidableEq for Except

/-- Association-list lookup: first binding wins, as for a Python dict in
which each key is written once. Models `d[k]` / `d.get(k)` /
`os.getenv(k)`. -/
def lookup {α : Type} (l : List (String × α)) (k : String) : Option α :=
  (l.find? (fun p => p.1 == k)).map (fun p => p.2)

/-- Embedding of the Python exceptions the modelled code can raise.
`estateRAG msg cause` is `EstateRAGException(msg, e)` wrapping a caught
exception; `estateRAGDirect msg` is an `EstateRAGException` raised with no
caught cause (as in `EstateRAGException("Missing API keys", sys)` with no
active exception). The interpolation of `str(e)` into some wrapper
messages is abstracted to the fixed message prefix, which no claim
inspects. `fitzEncrypted` is the PyMuPDF failure raised when a page of a
still-encrypted document is loaded without authentication. -/
inductive PyErr where
  | valueError (msg : String)
  | keyError (msg : String)
  | fitzEncrypted
  | estateRAGDirect (msg : String)
  | estateRAG (msg : String) (cause : PyErr)
deriving DecidableEq, Repr

/-- The `try/except` wrapper used by every method of the repository:
`raise EstateRAGException(msg, e) from e`. -/
def wrapErr (msg : String) : Except PyErr α → Except PyErr α
  | .ok a => .ok a
  | .error e => .error (.estateRAG msg e)

/-- A PDF document as seen through the `fitz` API surface the code uses:
`doc.is_encrypted` and the page list behind `doc.page_count` /
`doc.load_page(i).get_text()`. -/
structure PdfDoc where
  isEncrypted : Bool
  pages : List String
deriving DecidableEq, Repr

/-- `doc.load_page(page_num)` followed by `page.get_text()`. PyMuPDF opens
an encrypted document and reports `is_encrypted`, but loading a page of a
document that still requires authentication fails; on a readable document
it returns the text of page `i`. -/
def loadPageText (doc : PdfDoc) (i : Nat) : Except PyErr String :=
  if doc.isEncrypted then .error .fitzEncrypted
  else .ok (doc.pages.getD i "")

/-- Python falsiness of `text.strip()`: true when the text strips to the
empty string, i.e. contains only whitespace. -/
def isBlank (t : String) : Bool :=
  t.toList.all Char.isWhitespace

/-- The page-marker chunk `f"\n--- Page {page_num + 1} ---\n{page_text}"`
both `read_pdf` variants build (0-based index `i` for `page_num`). -/
def pageMarker (i : Nat) (text : String) : String :=
  "\n--- Page " ++ toString (i + 1) ++ " ---\n" ++ text

/-- The page loop of `EstateDocHandler.read_pdf` (analysis variant):
every page yields a marker chunk, with no emptiness test. -/
def readPagesHandler (doc : PdfDoc) : List Nat → Except PyErr (List String)
  | [] => .ok []
  | i :: rest =>
    match loadPageText doc i with
    | .error e => .error e
    | .ok t =>
      match readPagesHandler doc rest with
      | .error e => .error e
      | .ok chunks => .ok (pageMarker i t :: chunks)

/-- The page loop of `EstateDocumentIngestion.read_pdf` (comparison
variant): a marker chunk is appended only when `text.strip()` is truthy. -/
def readPagesIngestion (doc : PdfDoc) : List Nat → Except PyErr (List String)
  | [] => .ok []
  | i :: rest =>
    match loadPageText doc i with
    | .error e => .error e
    | .ok t =>
      match readPagesIngestion doc rest with
      | .error e => .error e
      | .ok parts => .ok (if isBlank t then parts else pageMarker i t :: parts)

/-- Body of `EstateDocHandler.read_pdf`: no encryption check, chunks for
all pages, joined with a newline. -/
def EstateDocHandler.read_pdfBody (doc : PdfDoc) : Except PyErr String :=
  match readPagesHandler doc (List.range doc.pages.length) with
  | .error e => .error e
  | .ok chunks => .ok (String.intercalate "\n" chunks)

/-- `EstateDocHandler.read_pdf(pdf_path)` with its `except` wrapper
`EstateRAGException(f"Could not process estate PDF: {pdf_path}", e)`. -/
def EstateDocHandler.read_pdf (doc : PdfDoc) (pdfPath : String) : Except PyErr String :=
  wrapErr ("Could not process estate PDF: " ++ pdfPath) (EstateDocHandler.read_pdfBody doc)

/-- Body of `EstateDocumentIngestion.read_pdf`: raise
`ValueError(f"PDF is encrypted: {pdf_path.name}")` when
`doc.is_encrypted`, otherwise collect non-blank page chunks and join with
a newline. -/
def EstateDocumentIngestion.read_pdfBody (doc : PdfDoc) (name : String) : Except PyErr String :=
  if doc.isEncrypted then
    .error (.valueError ("PDF is encrypted: " ++ name))
  else
    match readPagesIngestion doc (List.range doc.pages.length) with
    | .error e => .error e
    | .ok parts => .ok (String.intercalate "\n" parts)

/-- `EstateDocumentIngestion.read_pdf(pdf_path)` with its `except` wrapper
`EstateRAGException("Error reading estate PDF", e)`. -/
def EstateDocumentIngestion.read_pdf (doc : PdfDoc) (name : String) : Except PyErr String :=
  wrapErr "Error reading estate PDF" (EstateDocumentIngestion.read_pdfBody doc name)

/-- Python `str.lower()` (ASCII case folding, which covers every filename
and extension the code compares). -/
def lowerStr (s : String) : String :=
  ⟨s.toList.map Char.toLower⟩

/-- Python `str.endswith(t)`. -/
def strEndsWith (s t : String) : Bool :=
  decide (t.toList <:+ s.toList)

/-- Python string comparison `a <= b`: lexicographic on code points. -/
def charListLe : List Char → List Char → Bool
  | [], _ => true
  | _ :: _, [] => false
  | a :: as, b :: bs =>
    if a < b then true else if b < a then false else charListLe as bs

/-- `pathlib.PurePath.suffix` of a file name: the part from the last dot
on, empty when the name has no dot, starts with its only dot, or ends in
a dot. -/
def pathSuffix (name : String) : String :=
  match name.toList.reverse.findIdx? (fun c => c == '.') with
  | none => ""
  | some j =>
    let i := name.toList.length - 1 - j
    if 0 < i && 0 < j then ⟨name.toList.drop i⟩ else ""

/-- `os.path.basename`: the part of a path after the last slash. -/
def basename (p : String) : String :=
  ⟨(p.toList.reverse.takeWhile (fun c => c != '/')).reverse⟩

/-- `SUPPORTED_EXTENSIONS` from `utils/file_io.py`. -/
def SUPPORTED_EXTENSIONS : List String := [".pdf", ".docx", ".txt"]

/-- One entry of a session directory as `Path.iterdir()` yields it: its
file name, whether it is a regular file, and (when it is a PDF file) the
document behind it. -/
structure DirEntry where
  name : String
  isFile : Bool
  doc : PdfDoc
deriving DecidableEq, Repr

/-- Stable insertion step for `sorted(...)` on same-directory paths. -/
def insertByName (e : DirEntry) : List DirEntry → List DirEntry
  | [] => [e]
  | f :: fs =>
    if charListLe e.name.toList f.name.toList then e :: f :: fs
    else f :: insertByName e fs

/-- Python `sorted(self.session_path.iterdir())`: for entries of one
directory, a stable sort in lexicographic name order. -/
def sortByName : List DirEntry → List DirEntry
  | [] => []
  | e :: es => insertByName e (sortByName es)

/-- The loop body of `EstateDocumentIngestion.combine_documents`: walk the
sorted entries accumulating `f"Document: {file.name}\n{content}"` parts
for regular files with (case-insensitive) suffix `.pdf`, reading each via
`EstateDocumentIngestion.read_pdf`. -/
def combineLoop : List DirEntry → List String → Except PyErr (List String)
  | [], acc => .ok acc
  | f :: fs, acc =>
    if f.isFile && (lowerStr (pathSuffix f.name) == ".pdf") then
      match EstateDocumentIngestion.read_pdf f.doc f.name with
      | .error e => .error e
      | .ok content => combineLoop fs (acc ++ ["Document: " ++ f.name ++ "\n" ++ content])
    else combineLoop fs acc

/-- Body of `EstateDocumentIngestion.combine_documents`: the loop over the
sorted directory entries, joined with `"\n\n"`. -/
def combine_documentsBody (session : List DirEntry) : Except PyErr String :=
  match combineLoop (sortByName session) [] with
  | .error e => .error e
  | .ok parts => .ok (String.intercalate "\n\n" parts)

/-- `EstateDocumentIngestion.combine_documents` with its `except` wrapper
`EstateRAGException("Error combining estate documents", e)`. -/
def combine_documents (session : List DirEntry) : Except PyErr String :=
  wrapErr "Error combining estate documents" (combine_documentsBody session)

/-- A filesystem as an association list from paths to byte contents; a
write shadows any earlier binding for the same path. -/
def FileSys := List (String × List Nat)

/-- Write `content` to `path` (Python `open(path, "wb"); f.write(...)`). -/
def fsWrite (fs : FileSys) (path : String) (content : List Nat) : FileSys :=
  (path, content) :: fs

/-- Read back the bytes stored at `path`. -/
def fsRead (fs : FileSys) (path : String) : Option (List Nat) :=
  ((fs : List (String × List Nat)).find? (fun p => p.1 == path)).map (fun p => p.2)

/-- An uploaded file as the code consumes it: its `name` attribute and the
bytes obtained from `read()` or `getbuffer()` (the duck-typed accessors
yield the same bytes). -/
structure UploadedFile where
  name : String
  content : List Nat
deriving DecidableEq, Repr

/-- Body of `EstateDocHandler.save_pdf`: take the basename of the upload
name; unless it ends (case-insensitively) in `".pdf"` raise
`ValueError("Invalid file type. Only PDFs are allowed.")`; otherwise write
the bytes to `session_path/filename` and return that path. -/
def EstateDocHandler.save_pdfBody (fs : FileSys) (sessionPath : String)
    (file : UploadedFile) : FileSys × Except PyErr String :=
  let filename := basename file.name
  if strEndsWith (lowerStr filename) ".pdf" then
    let savePath := sessionPath ++ "/" ++ filename
    (fsWrite fs savePath file.content, .ok savePath)
  else
    (fs, .error (.valueError "Invalid file type. Only PDFs are allowed."))

/-- `EstateDocHandler.save_pdf` with its `except` wrapper
`EstateRAGException(f"Failed to save estate PDF: {str(e)}", e)`. -/
def EstateDocHandler.save_pdf (fs : FileSys) (sessionPath : String)
    (file : UploadedFile) : FileSys × Except PyErr String :=
  let r := EstateDocHandler.save_pdfBody fs sessionPath file
  (r.1, wrapErr "Failed to save estate PDF" r.2)

/-- Body of `EstateDocumentIngestion.save_uploaded_files`: the two-pass
loop over `((reference_file, ref_path), (actual_file, act_path))`, each
pass validating the (unmodified) upload name ends in `".pdf"`
case-insensitively and then writing the bytes; the first failing
validation raises `ValueError("Only PDF files are allowed.")`, leaving the
writes of earlier passes in place. -/
def EstateDocumentIngestion.save_uploaded_filesBody (fs : FileSys) (sessionPath : String)
    (ref act : UploadedFile) : FileSys × Except PyErr (String × String) :=
  let refPath := sessionPath ++ "/" ++ ref.name
  let actPath := sessionPath ++ "/" ++ act.name
  if strEndsWith (lowerStr ref.name) ".pdf" then
    let fs1 := fsWrite fs refPath ref.content
    if strEndsWith (lowerStr act.name) ".pdf" then
      (fsWrite fs1 actPath act.content, .ok (refPath, actPath))
    else
      (fs1, .error (.valueError "Only PDF files are allowed."))
  else
    (fs, .error (.valueError "Only PDF files are allowed."))

/-- `EstateDocumentIngestion.save_uploaded_files` with its `except`
wrapper `EstateRAGException("Error saving estate documents", e)`. -/
def EstateDocumentIngestion.save_uploaded_files (fs : FileSys) (sessionPath : String)
    (ref act : UploadedFile) : FileSys × Except PyErr (String × String) :=
  let r := EstateDocumentIngestion.save_uploaded_filesBody fs sessionPath ref act
  (r.1, wrapErr "Error saving estate documents" r.2)

/-- `ApiKeyManager.REQUIRED_KEYS` from `utils/model_loader.py`. -/
def REQUIRED_KEYS : List String := ["GROQ_API_KEY", "GOOGLE_API_KEY"]

/-- One structured log record: its level, message, and the list of key
names attached as structured context. -/
structure LogRecord where
  level : String
  msg : String
  keys : List String
deriving DecidableEq, Repr

/-- The state of the `API_KEYS` environment variable, seen through the
`if raw_keys:` gate and `json.loads`: unset (`os.getenv` returns `None`);
set to the empty string (falsy, so the gate skips the whole parse block
exactly as when unset); set to a non-empty string `json.loads` rejects;
set to a non-empty string that parses but is not a JSON object; or a
parsed JSON object of string entries. -/
inductive ApiKeysSecret where
  | absent
  | emptyStr
  | malformed
  | nonObject
  | obj (entries : List (String × String))
deriving DecidableEq, Repr

/-- The process environment as `ApiKeyManager` consumes it: the parsed
state of `API_KEYS`, and the other environment variables. -/
structure OsEnv where
  apiKeysSecret : ApiKeysSecret
  vars : List (String × String)
deriving Repr

/-- First block of `ApiKeyManager._load_api_keys`: when `API_KEYS` is set
to a non-empty (truthy) string, parse it; on any failure (`json.loads`
raising, or the parsed value not being a dict) log a warning and keep
`api_keys` empty; on success update `api_keys` with the parsed entries
and log at info level. When the variable is unset or empty the
`if raw_keys:` gate skips the block: nothing is parsed and nothing is
logged. -/
def secretStep : ApiKeysSecret → List LogRecord × List (String × String)
  | .absent => ([], [])
  | .emptyStr => ([], [])
  | .malformed => ([⟨"warning", "Failed to parse API_KEYS", []⟩], [])
  | .nonObject => ([⟨"warning", "Failed to parse API_KEYS", []⟩], [])
  | .obj entries => ([⟨"info", "API keys loaded from ECS secret", []⟩], entries)

/-- One pass of the fallback loop of `_load_api_keys`: a required key not
yet in `api_keys` is taken from its own environment variable when that
variable holds a truthy value — the source tests `if env_val:`, so a
variable set to the empty string is skipped just like an unset one. -/
def requiredKeyStep (vars : List (String × String))
    (st : List LogRecord × List (String × String)) (k : String) :
    List LogRecord × List (String × String) :=
  if (lookup st.2 k).isSome then st
  else
    match lookup vars k with
    | some v =>
      if v == "" then st
      else
        (st.1 ++ [⟨"info", "API key loaded from environment variable", [k]⟩], st.2 ++ [(k, v)])
    | none => st

/-- `ApiKeyManager._load_api_keys`, run by `ApiKeyManager.__init__`, so
this is exactly what constructing the credential manager does. Returns
the emitted log records and either the loaded key dict or the raised
`EstateRAGException("Missing API keys", sys)` (raised with no active
exception, so it carries no cause and no traceback). The missing key
names go only into the error-level log record. -/
def ApiKeyManager.loadApiKeys (env : OsEnv) :
    List LogRecord × Except PyErr (List (String × String)) :=
  let st0 := secretStep env.apiKeysSecret
  let st1 := REQUIRED_KEYS.foldl (requiredKeyStep env.vars) st0
  let missing := REQUIRED_KEYS.filter (fun k => (lookup st1.2 k).isNone)
  if missing.isEmpty then
    (st1.1 ++ [⟨"info", "API keys successfully loaded", st1.2.map (fun p => p.1)⟩], .ok st1.2)
  else
    (st1.1 ++ [⟨"error", "Missing required API keys", missing⟩],
     .error (.estateRAGDirect "Missing API keys"))

/-- `ApiKeyManager.get`: raise `KeyError` when the key was not loaded
(the Python message interpolates the key name; modelled as the suffix). -/
def ApiKeyManager.get (keys : List (String × String)) (k : String) : Except PyErr String :=
  match lookup keys k with
  | none => .error (.keyError ("API key is missing: " ++ k))
  | some v => .ok v

/-- One entry of the `llm` configuration block: the `.get`-accessed fields
of `config["llm"][provider_key]`. -/
structure LLMConfig where
  provider : Option String
  model_name : Option String
  temperature : Option Rat
  max_output_tokens : Option Nat
deriving DecidableEq, Repr

/-- A constructed model client: `ChatGoogleGenerativeAI(...)` or
`ChatGroq(...)` with the arguments the code passes. Constructing a handle
performs no network call; only a later `invoke` on it would. -/
inductive ModelHandle where
  | chatGoogleGenerativeAI (model : Option String) (googleApiKey : String)
      (temperature : Rat) (maxOutputTokens : Nat)
  | chatGroq (model : Option String) (apiKey : String) (temperature : Rat)
deriving DecidableEq, Repr

/-- Body of `ModelLoader.load_llm`. The first component records every
model client instantiated during the call (the source instantiates one in
the `google`/`groq` branches and none on any failure path, every raise
occurring before a constructor call). Error messages with interpolation
are modelled with the variable part as a suffix. -/
def load_llmBody (envVars : List (String × String)) (llmBlock : List (String × LLMConfig))
    (apiKeys : List (String × String)) : List ModelHandle × Except PyErr ModelHandle :=
  let provider_key := (lookup envVars "LLM_PROVIDER").getD "google"
  match lookup llmBlock provider_key with
  | none => ([], .error (.valueError ("LLM provider not found in configuration: " ++ provider_key)))
  | some llm_config =>
    let temperature := llm_config.temperature.getD (0.2 : Rat)
    let max_tokens := llm_config.max_output_tokens.getD 2048
    if llm_config.provider == some "google" then
      match ApiKeyManager.get apiKeys "GOOGLE_API_KEY" with
      | .error e => ([], .error e)
      | .ok key =>
        let h := ModelHandle.chatGoogleGenerativeAI llm_config.model_name key temperature max_tokens
        ([h], .ok h)
    else if llm_config.provider == some "groq" then
      match ApiKeyManager.get apiKeys "GROQ_API_KEY" with
      | .error e => ([], .error e)
      | .ok key =>
        let h := ModelHandle.chatGroq llm_config.model_name key temperature
        ([h], .ok h)
    else ([], .error (.valueError "Unsupported LLM provider"))

/-- `ModelLoader.load_llm` with its `except` wrapper
`EstateRAGException("LLM initialization failed", sys)`. -/
def load_llm (envVars : List (String × String)) (llmBlock : List (String × LLMConfig))
    (apiKeys : List (String × String)) : List ModelHandle × Except PyErr ModelHandle :=
  let r := load_llmBody envVars llmBlock apiKeys
  (r.1, wrapErr "LLM initialization failed" r.2)

/-- `ChangeFormat` from `model/models.py`: one page-level change record of
the comparison schema. -/
structure ChangeFormat where
  page : String
  changes : String
deriving DecidableEq, Repr

/-- `EstateDocumentComparatorLLM.compare_documents(combined_docs)`. The
chain `prompt | llm | fixing_parser` is one function from the corpus
bound into the prompt to the parsed record list (the other bound input,
`format_instruction`, is a fixed string). The first component is the
trace of chain invocations, each recorded as the corpus it was invoked
on; the body builds the inputs and invokes the chain unconditionally,
then `_format_response` turns the parsed records into the tabular result
(modelled as the record list itself). -/
def EstateDocumentComparatorLLM.compare_documents
    (chain : String → Except PyErr (List ChangeFormat)) (combined_docs : String) :
    List String × Except PyErr (List ChangeFormat) :=
  ([combined_docs], wrapErr "Error comparing estate documents" (chain combined_docs))

/-- The comparison pipeline as the repository drives it
(`test_document_comparator.py`): `combine_documents` on the session, then
`compare_documents` on the combined text. -/
def comparisonPipeline (chain : String → Except PyErr (List ChangeFormat))
    (session : List DirEntry) : List String × Except PyErr (List ChangeFormat) :=
  match combine_documents session with
  | .error e => ([], .error e)
  | .ok docs => EstateDocumentComparatorLLM.compare_documents chain docs

/-- The diagnostics the design document requires of a failed repair: both
raw payloads. -/
structure SchemaParseError where
  originalRaw : String
  repairRaw : String
deriving DecidableEq, Repr

/-- Modelled from the spec: the structured-response parser with repair
(`OutputFixingParser.from_llm(parser=..., llm=...)` in
`document_comparator.py` is langchain library code, not part of this
repository, so its behaviour is taken from the design document, section
4.6): attempt a strict parse; on failure re-prompt the model exactly once
with the original text and parse the corrected output strictly; if that
also fails, propagate a `SchemaParseError` carrying both raw payloads.
`strict` is the strict schema parse, `model` the repair re-prompt; the
first component is the trace of repair invocations, each recorded as the
original raw text it re-prompted with. -/
def fixingParserParse (strict : String → Except String (List ChangeFormat))
    (model : String → String) (raw : String) :
    List String × Except SchemaParseError (List ChangeFormat) :=
  match strict raw with
  | .ok v => ([], .ok v)
  | .error _ =>
    let repaired := model raw
    match strict repaired with
    | .ok v => ([raw], .ok v)
    | .error _ => ([raw], .error ⟨raw, repaired⟩)

/-- The text `EstateDocumentIngestion.read_pdf` extracts from a readable
document, in closed form: one marker block per page whose stripped text
is non-empty, empty pages skipped. -/
def ingestionExtractText (doc : PdfDoc) : String :=
  String.intercalate "\n" ((List.range doc.pages.length).filterMap (fun i =>
    let t := doc.pages.getD i ""
    if isBlank t then none else some (pageMarker i t)))

/-- The text `EstateDocHandler.read_pdf` extracts from a readable
document, in closed form: one marker block per page, empty pages
included. -/
def handlerExtractText (doc : PdfDoc) : String :=
  String.intercalate "\n" ((List.range doc.pages.length).map (fun i =>
    pageMarker i (doc.pages.getD i "")))

/-- The combined corpus as the claim describes it: the
`"Document: <name>\n<text>"` blocks of the regular files whose extension
is `.pdf` (case-insensitively), in lexicographic file-name order,
separated by blank lines. -/
def combinedSpecText (session : List DirEntry) : String :=
  String.intercalate "\n\n" ((sortByName session).filterMap (fun f =>
    if f.isFile && (lowerStr (pathSuffix f.name) == ".pdf") then
      some ("Document: " ++ f.name ++ "\n" ++ ingestionExtractText f.doc)
    else none))

/-- The key entries the `API_KEYS` secret contributes: those of a parsed
JSON object, and none in every other state. -/
def secretEntries : ApiKeysSecret → List (String × String)
  | .obj entries => entries
  | _ => []

/-- On a readable (non-encrypted) document the handler loop yields one
marker chunk per requested page. -/
theorem readPagesHandler_ok (doc : PdfDoc) (h : doc.isEncrypted = false) :
    ∀ is : List Nat,
      readPagesHandler doc is = .ok (is.map (fun i => pageMarker i (doc.pages.getD i ""))) := by
  intro is
  induction is with
  | nil => rfl
  | cons i rest ih =>
    simp [readPagesHandler, loadPageText, h, ih]

/-- On a readable document the ingestion loop yields marker chunks for
exactly the pages whose stripped text is non-empty. -/
theorem readPagesIngestion_ok (doc : PdfDoc) (h : doc.isEncrypted = false) :
    ∀ is : List Nat,
      readPagesIngestion doc is = .ok (is.filterMap (fun i =>
        let t := doc.pages.getD i ""
        if isBlank t then none else some (pageMarker i t))) := by
  intro is
  induction is with
  | nil => rfl
  | cons i rest ih =>
    simp only [readPagesIngestion, loadPageText, h, Bool.false_eq_true, if_false,
      List.filterMap_cons, ih]
    by_cases hb : isBlank (doc.pages[i]?.getD "") = true
    · simp [hb]
    · simp [hb]

/-- On a readable document the comparison-variant extraction succeeds and
returns the closed-form text. -/
theorem ingestion_read_ok (doc : PdfDoc) (name : String) (h : doc.isEncrypted = false) :
    EstateDocumentIngestion.read_pdf doc name = .ok (ingestionExtractText doc) := by
  simp [EstateDocumentIngestion.read_pdf, EstateDocumentIngestion.read_pdfBody, h,
    readPagesIngestion_ok doc h, wrapErr, ingestionExtractText]

/-- On a readable document the analysis-variant extraction succeeds and
returns the closed-form text. -/
theorem handler_read_ok (doc : PdfDoc) (path : String) (h : doc.isEncrypted = false) :
    EstateDocHandler.read_pdf doc path = .ok (handlerExtractText doc) := by
  simp [EstateDocHandler.read_pdf, EstateDocHandler.read_pdfBody,
    readPagesHandler_ok doc h, wrapErr, handlerExtractText]

/-- Membership is preserved by the insertion step of the sort. -/
theorem mem_insertByName {e a : DirEntry} : ∀ {l : List DirEntry},
    a ∈ insertByName e l ↔ a = e ∨ a ∈ l := by
  intro l
  induction l with
  | nil => simp [insertByName]
  | cons f fs ih =>
    by_cases hc : charListLe e.name.data f.name.data = true
    · simp [insertByName, hc]
    · simp [insertByName, hc, ih]
      tauto

/-- Sorting a session directory preserves membership. -/
theorem mem_sortByName {a : DirEntry} : ∀ {l : List DirEntry},
    a ∈ sortByName l ↔ a ∈ l := by
  intro l
  induction l with
  | nil => simp [sortByName]
  | cons f fs ih =>
    simp [sortByName, mem_insertByName, ih]

/-- When every matching PDF in the list is readable, the combine loop
succeeds and appends one document block per matching entry, in list
order. -/
theorem combineLoop_ok (l : List DirEntry)
    (h : ∀ f ∈ l, f.isFile = true → lowerStr (pathSuffix f.name) = ".pdf" →
      f.doc.isEncrypted = false) :
    ∀ acc : List String,
      combineLoop l acc = .ok (acc ++ l.filterMap (fun f =>
        if f.isFile && (lowerStr (pathSuffix f.name) == ".pdf") then
          some ("Document: " ++ f.name ++ "\n" ++ ingestionExtractText f.doc)
        else none)) := by
  induction l with
  | nil => intro acc; simp [combineLoop]
  | cons f fs ih =>
    intro acc
    have hfs : ∀ g ∈ fs, g.isFile = true → lowerStr (pathSuffix g.name) = ".pdf" →
        g.doc.isEncrypted = false :=
      fun g hg => h g (List.mem_cons_of_mem f hg)
    by_cases hc : f.isFile = true ∧ lowerStr (pathSuffix f.name) = ".pdf"
    · have henc := h f (List.mem_cons_self f fs) hc.1 hc.2
      simp [combineLoop, hc.1, hc.2, ingestion_read_ok f.doc f.name henc, ih hfs,
        List.filterMap_cons]
    · simp [combineLoop, hc, ih hfs, List.filterMap_cons]

/-- Reading back a freshly written path yields the written bytes. -/
theorem fsRead_write (fs : FileSys) (p : String) (c : List Nat) :
    fsRead (fsWrite fs p c) p = some c := by
  simp [fsRead, fsWrite, lookup]

/-- C5: `combine_documents` returns, in lexicographic file-name order, one
`"Document: <name>\n<text>"` block per regular file whose extension is
`.pdf` case-insensitively (other entries filtered out), blocks separated
by blank lines; a session with no matching file yields the empty string
and no error. Stated for sessions whose matching PDFs are readable (an
encrypted one would propagate its read error through the loop instead). -/
theorem C5_combine_documents (session : List DirEntry)
    (h : ∀ f ∈ session, f.isFile = true → lowerStr (pathSuffix f.name) = ".pdf" →
      f.doc.isEncrypted = false) :
    combine_documents session = .ok (combinedSpecText session) ∧
    ((∀ f ∈ session, ¬(f.isFile = true ∧ lowerStr (pathSuffix f.name) = ".pdf")) →
      combine_documents session = .ok "") := by
  have hs : ∀ f ∈ sortByName session, f.isFile = true →
      lowerStr (pathSuffix f.name) = ".pdf" → f.doc.isEncrypted = false :=
    fun f hf => h f (mem_sortByName.mp hf)
  have hmain : combine_documents session = .ok (combinedSpecText session) := by
    simp [combine_documents, combine_documentsBody,
      combineLoop_ok (sortByName session) hs [], wrapErr, combinedSpecText]
  refine ⟨hmain, fun hnone => ?_⟩
  have hall : ∀ f ∈ sortByName session,
      (if f.isFile && (lowerStr (pathSuffix f.name) == ".pdf") then
        some ("Document: " ++ f.name ++ "\n" ++ ingestionExtractText f.doc)
      else none) = none := by
    intro f hf
    have hn := hnone f (mem_sortByName.mp hf)
    by_cases h1 : f.isFile = true
    · have h2 : lowerStr (pathSuffix f.name) ≠ ".pdf" := fun h2 => hn ⟨h1, h2⟩
      simp [h1, h2]
    · rw [Bool.not_eq_true] at h1
      simp [h1]
  have hempty : combinedSpecText session = "" := by
    rw [combinedSpecText, List.filterMap_eq_nil_iff.mpr hall]
    rfl
  rw [hmain, hempty]

/-- C6 (amended): only the comparison ingestion variant skips empty
pages; for a readable document, `EstateDocumentIngestion.read_pdf` emits
a page-marker block exactly for the pages whose stripped text is
non-empty, while `EstateDocHandler.read_pdf` (the analysis variant) emits
a page-marker block for every page, empty pages included. -/
theorem C6_empty_page_policy (doc : PdfDoc) (name path : String)
    (h : doc.isEncrypted = false) :
    EstateDocumentIngestion.read_pdf doc name
      = .ok (String.intercalate "\n" ((List.range doc.pages.length).filterMap (fun i =>
          if isBlank (doc.pages.getD i "") then none
          else some (pageMarker i (doc.pages.getD i ""))))) ∧
    EstateDocHandler.read_pdf doc path
      = .ok (String.intercalate "\n" ((List.range doc.pages.length).map (fun i =>
          pageMarker i (doc.pages.getD i "")))) := by
  constructor
  · simpa [ingestionExtractText] using ingestion_read_ok doc name h
  · simpa [handlerExtractText] using handler_read_ok doc path h

/-- C6: counterexample — the analysis variant represents an empty page as
a blank marker entry instead of skipping it, so the claimed policy does
not hold for both variants. -/
theorem C6_counterexample :
    EstateDocHandler.read_pdf ⟨false, [""]⟩ "blank.pdf" = .ok (pageMarker 0 "") ∧
    pageMarker 0 "" ≠ "" ∧
    EstateDocumentIngestion.read_pdf ⟨false, [""]⟩ "blank.pdf" = .ok "" := by
  decide

/-- C6: witness — the amended policy evaluated on a readable three-page
document with an empty middle page. -/
theorem C6_empty_page_policy_witness :
    EstateDocumentIngestion.read_pdf ⟨false, ["a", "", "b"]⟩ "m.pdf"
      = .ok "\n--- Page 1 ---\na\n\n--- Page 3 ---\nb" ∧
    EstateDocHandler.read_pdf ⟨false, ["a", "", "b"]⟩ "m.pdf"
      = .ok "\n--- Page 1 ---\na\n\n--- Page 2 ---\n\n\n--- Page 3 ---\nb" := by
  have h := C6_empty_page_policy ⟨false, ["a", "", "b"]⟩ "m.pdf" "m.pdf" rfl
  exact ⟨by rw [h.1]; decide, by rw [h.2]; decide⟩

/-- C3 (amended): for an encrypted document, the comparison ingestion
variant fails with the encrypted-document `ValueError` raised by its
explicit check, before its page loop runs (had a page load been
attempted, the error would be the page-load failure instead); the
analysis variant performs no encryption check, so on a non-empty
encrypted document it fails only from the attempted load of the first
page, wrapped as the generic read error. -/
theorem C3_encryption_check (doc : PdfDoc) (name path : String)
    (henc : doc.isEncrypted = true) :
    EstateDocumentIngestion.read_pdf doc name
      = .error (.estateRAG "Error reading estate PDF"
          (.valueError ("PDF is encrypted: " ++ name))) ∧
    (doc.pages ≠ [] →
      EstateDocHandler.read_pdf doc path
        = .error (.estateRAG ("Could not process estate PDF: " ++ path) .fitzEncrypted)) := by
  constructor
  · simp [EstateDocumentIngestion.read_pdf, EstateDocumentIngestion.read_pdfBody, henc, wrapErr]
  · intro hp
    obtain ⟨n, hn⟩ := Nat.exists_eq_succ_of_ne_zero
      (fun h0 => hp (List.length_eq_zero.mp h0))
    simp [EstateDocHandler.read_pdf, EstateDocHandler.read_pdfBody, hn,
      List.range_succ_eq_map, readPagesHandler, loadPageText, henc, wrapErr]

/-- C3: counterexample — on an encrypted document the analysis variant
(`EstateDocHandler.read_pdf`) does not fail with the encrypted-document
error before any page is read: its failure is the page-load error from
attempting page 1, not the encryption `ValueError` the claim requires of
both variants. -/
theorem C3_counterexample :
    EstateDocHandler.read_pdf ⟨true, ["owner records"]⟩ "enc.pdf"
      = .error (.estateRAG "Could not process estate PDF: enc.pdf" .fitzEncrypted) ∧
    EstateDocHandler.read_pdf ⟨true, ["owner records"]⟩ "enc.pdf"
      ≠ .error (.estateRAG "Could not process estate PDF: enc.pdf"
          (.valueError "PDF is encrypted: enc.pdf")) := by
  decide

/-- C3: witness — the amended behaviour evaluated on a one-page encrypted
document. -/
theorem C3_encryption_check_witness :
    EstateDocumentIngestion.read_pdf ⟨true, ["x"]⟩ "a.pdf"
      = .error (.estateRAG "Error reading estate PDF"
          (.valueError ("PDF is encrypted: " ++ "a.pdf"))) ∧
    EstateDocHandler.read_pdf ⟨true, ["x"]⟩ "b.pdf"
      = .error (.estateRAG ("Could not process estate PDF: " ++ "b.pdf") .fitzEncrypted) := by
  have h := C3_encryption_check ⟨true, ["x"]⟩ "a.pdf" "b.pdf" rfl
  exact ⟨h.1, h.2 (by decide)⟩

/-- C4 (amended): `save_pdf` accepts only names ending case-insensitively
in `".pdf"` — not the full `SUPPORTED_EXTENSIONS` set, which it never
consults: any other name fails with the invalid-file-type `ValueError`
and leaves the filesystem untouched, while a `.pdf` name succeeds and the
stored bytes at the returned path equal the uploaded bytes exactly. -/
theorem C4_save_pdf (fs : FileSys) (sessionPath : String) (file : UploadedFile) :
    (strEndsWith (lowerStr (basename file.name)) ".pdf" = false →
      EstateDocHandler.save_pdf fs sessionPath file
        = (fs, .error (.estateRAG "Failed to save estate PDF"
            (.valueError "Invalid file type. Only PDFs are allowed.")))) ∧
    (strEndsWith (lowerStr (basename file.name)) ".pdf" = true →
      (EstateDocHandler.save_pdf fs sessionPath file).2
          = .ok (sessionPath ++ "/" ++ basename file.name) ∧
      fsRead (EstateDocHandler.save_pdf fs sessionPath file).1
          (sessionPath ++ "/" ++ basename file.name) = some file.content) := by
  constructor
  · intro hf
    simp [EstateDocHandler.save_pdf, EstateDocHandler.save_pdfBody, hf, wrapErr]
  · intro ht
    refine ⟨?_, ?_⟩
    · simp [EstateDocHandler.save_pdf, EstateDocHandler.save_pdfBody, ht, wrapErr]
    · simp [EstateDocHandler.save_pdf, EstateDocHandler.save_pdfBody, ht, fsRead_write]

/-- C4: counterexample — `.docx` is in `SUPPORTED_EXTENSIONS` and
`"will.docx"` ends in it, yet `save_pdf` rejects the file with the
invalid-file-type error instead of succeeding, so the supported set of
the claim is wrong for this call. -/
theorem C4_counterexample :
    ".docx" ∈ SUPPORTED_EXTENSIONS ∧
    strEndsWith (lowerStr "will.docx") ".docx" = true ∧
    (EstateDocHandler.save_pdf [] "sess" ⟨"will.docx", [7]⟩).2
      = .error (.estateRAG "Failed to save estate PDF"
          (.valueError "Invalid file type. Only PDFs are allowed.")) := by
  decide

/-- C4: witness — a rejected `.txt` upload and an accepted mixed-case
`.PDF` upload whose stored bytes round-trip. -/
theorem C4_save_pdf_witness :
    EstateDocHandler.save_pdf [] "sess" ⟨"notes.txt", [9]⟩
      = ([], .error (.estateRAG "Failed to save estate PDF"
          (.valueError "Invalid file type. Only PDFs are allowed."))) ∧
    (EstateDocHandler.save_pdf [] "sess" ⟨"Will.PDF", [1, 2, 3]⟩).2
      = .ok ("sess" ++ "/" ++ basename "Will.PDF") ∧
    fsRead (EstateDocHandler.save_pdf [] "sess" ⟨"Will.PDF", [1, 2, 3]⟩).1
      ("sess" ++ "/" ++ basename "Will.PDF") = some [1, 2, 3] := by
  refine ⟨(C4_save_pdf [] "sess" ⟨"notes.txt", [9]⟩).1 (by decide), ?_, ?_⟩
  · exact ((C4_save_pdf [] "sess" ⟨"Will.PDF", [1, 2, 3]⟩).2 (by decide)).1
  · exact ((C4_save_pdf [] "sess" ⟨"Will.PDF", [1, 2, 3]⟩).2 (by decide)).2

/-- C9: saving the reference/actual pair is not atomic — when the
reference name ends in `.pdf` but the actual name does not, the call
fails with the wrapped `ValueError`, yet the reference file has already
been written into the session directory (its bytes are readable at its
path in the resulting state), so the session directory is left partially
modified and nothing rolls it back. -/
theorem C9_partial_save (fs : FileSys) (sessionPath : String) (ref act : UploadedFile)
    (h1 : strEndsWith (lowerStr ref.name) ".pdf" = true)
    (h2 : strEndsWith (lowerStr act.name) ".pdf" = false) :
    (EstateDocumentIngestion.save_uploaded_files fs sessionPath ref act).2
      = .error (.estateRAG "Error saving estate documents"
          (.valueError "Only PDF files are allowed.")) ∧
    fsRead (EstateDocumentIngestion.save_uploaded_files fs sessionPath ref act).1
      (sessionPath ++ "/" ++ ref.name) = some ref.content := by
  constructor
  · simp [EstateDocumentIngestion.save_uploaded_files,
      EstateDocumentIngestion.save_uploaded_filesBody, h1, h2, wrapErr]
  · simp [EstateDocumentIngestion.save_uploaded_files,
      EstateDocumentIngestion.save_uploaded_filesBody, h1, h2, fsRead_write]

/-- C9: witness — a `.pdf` reference with a `.txt` actual file: the call
errors and the reference bytes are already stored. -/
theorem C9_partial_save_witness :
    (EstateDocumentIngestion.save_uploaded_files [] "s" ⟨"r.pdf", [1]⟩ ⟨"a.txt", [2]⟩).2
      = .error (.estateRAG "Error saving estate documents"
          (.valueError "Only PDF files are allowed.")) ∧
    fsRead (EstateDocumentIngestion.save_uploaded_files [] "s" ⟨"r.pdf", [1]⟩ ⟨"a.txt", [2]⟩).1
      ("s" ++ "/" ++ "r.pdf") = some [1] :=
  C9_partial_save [] "s" ⟨"r.pdf", [1]⟩ ⟨"a.txt", [2]⟩ (by decide) (by decide)

/-- C5: witness — a session uploaded out of order with a non-PDF file
mixed in combines in lexicographic name order with the `.txt` entry
filtered out, and a session with no PDF yields the empty corpus. -/
theorem C5_combine_documents_witness :
    combine_documents [⟨"b.pdf", true, ⟨false, ["beta"]⟩⟩, ⟨"a.pdf", true, ⟨false, ["alpha"]⟩⟩,
        ⟨"notes.txt", true, ⟨false, ["t"]⟩⟩]
      = .ok (combinedSpecText [⟨"b.pdf", true, ⟨false, ["beta"]⟩⟩,
          ⟨"a.pdf", true, ⟨false, ["alpha"]⟩⟩, ⟨"notes.txt", true, ⟨false, ["t"]⟩⟩]) ∧
    combinedSpecText [⟨"b.pdf", true, ⟨false, ["beta"]⟩⟩, ⟨"a.pdf", true, ⟨false, ["alpha"]⟩⟩,
        ⟨"notes.txt", true, ⟨false, ["t"]⟩⟩]
      = "Document: a.pdf\n\n--- Page 1 ---\nalpha\n\nDocument: b.pdf\n\n--- Page 1 ---\nbeta" ∧
    combine_documents [⟨"notes.txt", true, ⟨false, ["t"]⟩⟩] = .ok "" := by
  refine ⟨(C5_combine_documents _ (by decide)).1, by decide, ?_⟩
  exact (C5_combine_documents [⟨"notes.txt", true, ⟨false, ["t"]⟩⟩] (by decide)).2 (by decide)

/-- Looking a key up in the empty dict yields nothing. -/
theorem lookup_nil {α : Type} (k : String) : lookup ([] : List (String × α)) k = none := rfl

/-- Unfolding one binding of an association-list lookup. -/
theorem lookup_cons {α : Type} (a : String) (v : α) (l : List (String × α)) (k : String) :
    lookup ((a, v) :: l) k = if a == k then some v else lookup l k := by
  by_cases h : (a == k) = true <;> simp [lookup, List.find?_cons, h]

/-- C7 (amended): when both required keys are absent from the parsed
`API_KEYS` secret and from the individual environment variables,
credential-manager construction fails — at construction time, since
`__init__` runs `_load_api_keys` — with the missing-credential
`EstateRAGException` whose message is the fixed string
`"Missing API keys"`; the two missing key names are listed in the
error-level log record emitted just before the raise, not in the
exception itself. -/
theorem C7_missing_credentials (env : OsEnv)
    (hs1 : lookup (secretEntries env.apiKeysSecret) "GROQ_API_KEY" = none)
    (hs2 : lookup (secretEntries env.apiKeysSecret) "GOOGLE_API_KEY" = none)
    (hv1 : lookup env.vars "GROQ_API_KEY" = none)
    (hv2 : lookup env.vars "GOOGLE_API_KEY" = none) :
    (ApiKeyManager.loadApiKeys env).2 = .error (.estateRAGDirect "Missing API keys") ∧
    (⟨"error", "Missing required API keys", ["GROQ_API_KEY", "GOOGLE_API_KEY"]⟩ : LogRecord)
      ∈ (ApiKeyManager.loadApiKeys env).1 := by
  have hsnd : (secretStep env.apiKeysSecret).2 = secretEntries env.apiKeysSecret := by
    cases env.apiKeysSecret <;> rfl
  have e1 : requiredKeyStep env.vars (secretStep env.apiKeysSecret) "GROQ_API_KEY"
      = secretStep env.apiKeysSecret := by
    simp [requiredKeyStep, hsnd, hs1, hv1]
  have e2 : requiredKeyStep env.vars (secretStep env.apiKeysSecret) "GOOGLE_API_KEY"
      = secretStep env.apiKeysSecret := by
    simp [requiredKeyStep, hsnd, hs2, hv2]
  constructor
  · simp [ApiKeyManager.loadApiKeys, REQUIRED_KEYS, e1, e2, hsnd, hs1, hs2]
  · simp [ApiKeyManager.loadApiKeys, REQUIRED_KEYS, e1, e2, hsnd, hs1, hs2]

/-- C7: counterexample — with no secret and no environment variables the
raised error is exactly `EstateRAGException` with the fixed message
`"Missing API keys"`, which names neither missing key; the claim that the
error lists both missing keys fails (only the log record lists them). -/
theorem C7_counterexample :
    ApiKeyManager.loadApiKeys ⟨.absent, []⟩
      = ([⟨"error", "Missing required API keys", ["GROQ_API_KEY", "GOOGLE_API_KEY"]⟩],
         .error (.estateRAGDirect "Missing API keys")) ∧
    ¬ ("GROQ_API_KEY".toList <:+: "Missing API keys".toList) ∧
    ¬ ("GOOGLE_API_KEY".toList <:+: "Missing API keys".toList) := by
  decide

/-- C7: witness — a secret holding only an unrelated key and an
environment holding only `PATH`. -/
theorem C7_missing_credentials_witness :
    (ApiKeyManager.loadApiKeys ⟨.obj [("OTHER", "x")], [("PATH", "/bin")]⟩).2
      = .error (.estateRAGDirect "Missing API keys") ∧
    (⟨"error", "Missing required API keys", ["GROQ_API_KEY", "GOOGLE_API_KEY"]⟩ : LogRecord)
      ∈ (ApiKeyManager.loadApiKeys ⟨.obj [("OTHER", "x")], [("PATH", "/bin")]⟩).1 :=
  C7_missing_credentials ⟨.obj [("OTHER", "x")], [("PATH", "/bin")]⟩
    (by decide) (by decide) (by decide) (by decide)

/-- A required key whose environment variable is unset or set to the
empty string (falsy under the `if env_val:` test) is skipped by the
fallback pass. -/
theorem requiredKeyStep_falsy (vars : List (String × String))
    (st : List LogRecord × List (String × String)) (k : String)
    (h : (lookup vars k).getD "" = "") :
    requiredKeyStep vars st k = st := by
  unfold requiredKeyStep
  by_cases hin : (lookup st.2 k).isSome = true
  · simp [hin]
  · cases hv : lookup vars k with
    | none => simp [hin, hv]
    | some v =>
      rw [hv] at h
      simp only [Option.getD_some] at h
      subst h
      simp [hin, hv]

/-- A required key not yet loaded whose environment variable holds a
non-empty value is added by the fallback pass together with its info
log record. -/
theorem requiredKeyStep_truthy (vars : List (String × String))
    (st : List LogRecord × List (String × String)) (k v : String)
    (hv : lookup vars k = some v) (hne : v ≠ "")
    (hin : lookup st.2 k = none) :
    requiredKeyStep vars st k
      = (st.1 ++ [⟨"info", "API key loaded from environment variable", [k]⟩],
         st.2 ++ [(k, v)]) := by
  unfold requiredKeyStep
  simp [hin, hv, hne]

/-- C10 (amended): a malformed or non-object (non-empty) `API_KEYS` value
never fails construction by itself — the parse failure is logged as a
warning and the manager falls back to the per-key environment variables —
but the fallback applies Python truthiness (`if env_val:`), so
construction succeeds exactly when each required variable is set to a
non-empty string: a required key that is unset or set to the empty
string fails construction even though it is present in the
environment. -/
theorem C10_malformed_secret_fallback (env : OsEnv)
    (h : env.apiKeysSecret = .malformed ∨ env.apiKeysSecret = .nonObject) :
    (⟨"warning", "Failed to parse API_KEYS", []⟩ : LogRecord) ∈ (ApiKeyManager.loadApiKeys env).1 ∧
    ((ApiKeyManager.loadApiKeys env).2.isOk = true ↔
      (lookup env.vars "GROQ_API_KEY").getD "" ≠ "" ∧
      (lookup env.vars "GOOGLE_API_KEY").getD "" ≠ "") := by
  have hstep : secretStep env.apiKeysSecret
      = ([⟨"warning", "Failed to parse API_KEYS", []⟩], []) := by
    rcases h with h | h <;> rw [h] <;> rfl
  by_cases hg : (lookup env.vars "GROQ_API_KEY").getD "" = ""
  · have e1 : requiredKeyStep env.vars ([⟨"warning", "Failed to parse API_KEYS", []⟩],
        ([] : List (String × String))) "GROQ_API_KEY"
        = ([⟨"warning", "Failed to parse API_KEYS", []⟩], []) :=
      requiredKeyStep_falsy env.vars _ "GROQ_API_KEY" hg
    by_cases hG : (lookup env.vars "GOOGLE_API_KEY").getD "" = ""
    · have e2 : requiredKeyStep env.vars ([⟨"warning", "Failed to parse API_KEYS", []⟩],
          ([] : List (String × String))) "GOOGLE_API_KEY"
          = ([⟨"warning", "Failed to parse API_KEYS", []⟩], []) :=
        requiredKeyStep_falsy env.vars _ "GOOGLE_API_KEY" hG
      have hload : ApiKeyManager.loadApiKeys env
          = ([⟨"warning", "Failed to parse API_KEYS", []⟩,
              ⟨"error", "Missing required API keys", ["GROQ_API_KEY", "GOOGLE_API_KEY"]⟩],
             .error (.estateRAGDirect "Missing API keys")) := by
        simp only [ApiKeyManager.loadApiKeys, REQUIRED_KEYS, List.foldl_cons, List.foldl_nil,
          hstep, e1, e2]
        simp [lookup_nil]
      rw [hload]
      simp [Except.isOk, Except.toBool, hg, hG]
    · obtain ⟨gv, hGv, hGne⟩ : ∃ v, lookup env.vars "GOOGLE_API_KEY" = some v ∧ v ≠ "" := by
        cases hv : lookup env.vars "GOOGLE_API_KEY" with
        | none => rw [hv] at hG; simp at hG
        | some v => rw [hv] at hG; simp only [Option.getD_some] at hG; exact ⟨v, rfl, hG⟩
      have e2 : requiredKeyStep env.vars ([⟨"warning", "Failed to parse API_KEYS", []⟩],
          ([] : List (String × String))) "GOOGLE_API_KEY"
          = ([⟨"warning", "Failed to parse API_KEYS", []⟩,
              ⟨"info", "API key loaded from environment variable", ["GOOGLE_API_KEY"]⟩],
             [("GOOGLE_API_KEY", gv)]) :=
        requiredKeyStep_truthy env.vars _ "GOOGLE_API_KEY" gv hGv hGne (lookup_nil _)
      have hload : ApiKeyManager.loadApiKeys env
          = ([⟨"warning", "Failed to parse API_KEYS", []⟩,
              ⟨"info", "API key loaded from environment variable", ["GOOGLE_API_KEY"]⟩,
              ⟨"error", "Missing required API keys", ["GROQ_API_KEY"]⟩],
             .error (.estateRAGDirect "Missing API keys")) := by
        simp only [ApiKeyManager.loadApiKeys, REQUIRED_KEYS, List.foldl_cons, List.foldl_nil,
          hstep, e1, e2]
        simp [lookup_cons, lookup_nil]
      rw [hload]
      simp [Except.isOk, Except.toBool, hg, hG]
  · obtain ⟨gr, hgv, hgne⟩ : ∃ v, lookup env.vars "GROQ_API_KEY" = some v ∧ v ≠ "" := by
      cases hv : lookup env.vars "GROQ_API_KEY" with
      | none => rw [hv] at hg; simp at hg
      | some v => rw [hv] at hg; simp only [Option.getD_some] at hg; exact ⟨v, rfl, hg⟩
    have e1 : requiredKeyStep env.vars ([⟨"warning", "Failed to parse API_KEYS", []⟩],
        ([] : List (String × String))) "GROQ_API_KEY"
        = ([⟨"warning", "Failed to parse API_KEYS", []⟩,
            ⟨"info", "API key loaded from environment variable", ["GROQ_API_KEY"]⟩],
           [("GROQ_API_KEY", gr)]) :=
      requiredKeyStep_truthy env.vars _ "GROQ_API_KEY" gr hgv hgne (lookup_nil _)
    by_cases hG : (lookup env.vars "GOOGLE_API_KEY").getD "" = ""
    · have e2 : requiredKeyStep env.vars ([⟨"warning", "Failed to parse API_KEYS", []⟩,
          ⟨"info", "API key loaded from environment variable", ["GROQ_API_KEY"]⟩],
          [("GROQ_API_KEY", gr)]) "GOOGLE_API_KEY"
          = ([⟨"warning", "Failed to parse API_KEYS", []⟩,
              ⟨"info", "API key loaded from environment variable", ["GROQ_API_KEY"]⟩],
             [("GROQ_API_KEY", gr)]) :=
        requiredKeyStep_falsy env.vars _ "GOOGLE_API_KEY" hG
      have hload : ApiKeyManager.loadApiKeys env
          = ([⟨"warning", "Failed to parse API_KEYS", []⟩,
              ⟨"info", "API key loaded from environment variable", ["GROQ_API_KEY"]⟩,
              ⟨"error", "Missing required API keys", ["GOOGLE_API_KEY"]⟩],
             .error (.estateRAGDirect "Missing API keys")) := by
        simp only [ApiKeyManager.loadApiKeys, REQUIRED_KEYS, List.foldl_cons, List.foldl_nil,
          hstep, e1, e2]
        simp [lookup_cons, lookup_nil]
      rw [hload]
      simp [Except.isOk, Except.toBool, hg, hG]
    · obtain ⟨gv, hGv, hGne⟩ : ∃ v, lookup env.vars "GOOGLE_API_KEY" = some v ∧ v ≠ "" := by
        cases hv : lookup env.vars "GOOGLE_API_KEY" with
        | none => rw [hv] at hG; simp at hG
        | some v => rw [hv] at hG; simp only [Option.getD_some] at hG; exact ⟨v, rfl, hG⟩
      have e2 : requiredKeyStep env.vars ([⟨"warning", "Failed to parse API_KEYS", []⟩,
          ⟨"info", "API key loaded from environment variable", ["GROQ_API_KEY"]⟩],
          [("GROQ_API_KEY", gr)]) "GOOGLE_API_KEY"
          = ([⟨"warning", "Failed to parse API_KEYS", []⟩,
              ⟨"info", "API key loaded from environment variable", ["GROQ_API_KEY"]⟩,
              ⟨"info", "API key loaded from environment variable", ["GOOGLE_API_KEY"]⟩],
             [("GROQ_API_KEY", gr), ("GOOGLE_API_KEY", gv)]) :=
        requiredKeyStep_truthy env.vars _ "GOOGLE_API_KEY" gv hGv hGne
          (by simp [lookup_cons, lookup_nil])
      have hload : ApiKeyManager.loadApiKeys env
          = ([⟨"warning", "Failed to parse API_KEYS", []⟩,
              ⟨"info", "API key loaded from environment variable", ["GROQ_API_KEY"]⟩,
              ⟨"info", "API key loaded from environment variable", ["GOOGLE_API_KEY"]⟩,
              ⟨"info", "API keys successfully loaded", ["GROQ_API_KEY", "GOOGLE_API_KEY"]⟩],
             .ok [("GROQ_API_KEY", gr), ("GOOGLE_API_KEY", gv)]) := by
        simp only [ApiKeyManager.loadApiKeys, REQUIRED_KEYS, List.foldl_cons, List.foldl_nil,
          hstep, e1, e2]
        simp [lookup_cons, lookup_nil]
      rw [hload]
      simp [Except.isOk, Except.toBool, hg, hG]

/-- C10: counterexample — with a malformed secret, both required keys
present as environment variables but `GROQ_API_KEY` set to the empty
string, construction fails although neither required key is absent from
the environment variables; and an `API_KEYS` value of the empty string
is itself malformed JSON, yet no parse-failure warning is logged because
the `if raw_keys:` gate skips the parse block. -/
theorem C10_counterexample :
    (lookup [("GROQ_API_KEY", ""), ("GOOGLE_API_KEY", "g2")] "GROQ_API_KEY").isSome = true ∧
    (lookup [("GROQ_API_KEY", ""), ("GOOGLE_API_KEY", "g2")] "GOOGLE_API_KEY").isSome = true ∧
    (ApiKeyManager.loadApiKeys
        ⟨.malformed, [("GROQ_API_KEY", ""), ("GOOGLE_API_KEY", "g2")]⟩).2
      = .error (.estateRAGDirect "Missing API keys") ∧
    ¬ ((⟨"warning", "Failed to parse API_KEYS", []⟩ : LogRecord)
        ∈ (ApiKeyManager.loadApiKeys
            ⟨.emptyStr, [("GROQ_API_KEY", "g1"), ("GOOGLE_API_KEY", "g2")]⟩).1) := by
  decide

/-- C10: witness — a malformed secret with both keys present and
non-empty as individual environment variables loads successfully, with
the warning logged. -/
theorem C10_malformed_secret_fallback_witness :
    (⟨"warning", "Failed to parse API_KEYS", []⟩ : LogRecord)
      ∈ (ApiKeyManager.loadApiKeys ⟨.malformed,
          [("GROQ_API_KEY", "g1"), ("GOOGLE_API_KEY", "g2")]⟩).1 ∧
    ((ApiKeyManager.loadApiKeys ⟨.malformed,
          [("GROQ_API_KEY", "g1"), ("GOOGLE_API_KEY", "g2")]⟩).2.isOk = true ↔
      (lookup [("GROQ_API_KEY", "g1"), ("GOOGLE_API_KEY", "g2")] "GROQ_API_KEY").getD ""
        ≠ "" ∧
      (lookup [("GROQ_API_KEY", "g1"), ("GOOGLE_API_KEY", "g2")] "GOOGLE_API_KEY").getD ""
        ≠ "") :=
  C10_malformed_secret_fallback
    ⟨.malformed, [("GROQ_API_KEY", "g1"), ("GOOGLE_API_KEY", "g2")]⟩ (Or.inl rfl)

/-- C8: for a provider identifier that is not configured (absent from the
llm configuration block) or not supported (its provider field neither
google nor groq), `load_llm` fails with the wrapped `ValueError` of the
matching raise, and the client-instantiation trace is empty: no model
client is instantiated, so no network call can have been made (only an
`invoke` on a constructed client would reach the network, and every
raise occurs before a client constructor runs). -/
theorem C8_unsupported_provider (envVars : List (String × String))
    (llmBlock : List (String × LLMConfig)) (apiKeys : List (String × String))
    (h1 : (lookup llmBlock ((lookup envVars "LLM_PROVIDER").getD "google")).map
        LLMConfig.provider ≠ some (some "google"))
    (h2 : (lookup llmBlock ((lookup envVars "LLM_PROVIDER").getD "google")).map
        LLMConfig.provider ≠ some (some "groq")) :
    (load_llm envVars llmBlock apiKeys).1 = [] ∧
    ((load_llm envVars llmBlock apiKeys).2
        = .error (.estateRAG "LLM initialization failed"
            (.valueError ("LLM provider not found in configuration: "
              ++ (lookup envVars "LLM_PROVIDER").getD "google"))) ∨
     (load_llm envVars llmBlock apiKeys).2
        = .error (.estateRAG "LLM initialization failed"
            (.valueError "Unsupported LLM provider"))) := by
  cases hc : lookup llmBlock ((lookup envVars "LLM_PROVIDER").getD "google") with
  | none =>
    refine ⟨?_, Or.inl ?_⟩
    · simp [load_llm, load_llmBody, hc]
    · simp [load_llm, load_llmBody, hc, wrapErr]
  | some cfg =>
    rw [hc] at h1 h2
    simp only [Option.map_some', ne_eq, Option.some.injEq] at h1 h2
    have hgf : (cfg.provider == some "google") = false := beq_eq_false_iff_ne.mpr h1
    have hqf : (cfg.provider == some "groq") = false := beq_eq_false_iff_ne.mpr h2
    refine ⟨?_, Or.inr ?_⟩
    · simp [load_llm, load_llmBody, hc, hgf, hqf]
    · simp [load_llm, load_llmBody, hc, hgf, hqf, wrapErr]

/-- C8: witness — an `LLM_PROVIDER` pointing at a configured entry whose
provider field is `openai`: the call fails and no client is
instantiated. -/
theorem C8_unsupported_provider_witness :
    (load_llm [("LLM_PROVIDER", "openai")]
        [("openai", ⟨some "openai", some "gpt-4", none, none⟩)] []).1 = [] ∧
    ((load_llm [("LLM_PROVIDER", "openai")]
        [("openai", ⟨some "openai", some "gpt-4", none, none⟩)] []).2
        = .error (.estateRAG "LLM initialization failed"
            (.valueError ("LLM provider not found in configuration: "
              ++ (lookup [("LLM_PROVIDER", "openai")] "LLM_PROVIDER").getD "google"))) ∨
     (load_llm [("LLM_PROVIDER", "openai")]
        [("openai", ⟨some "openai", some "gpt-4", none, none⟩)] []).2
        = .error (.estateRAG "LLM initialization failed"
            (.valueError "Unsupported LLM provider"))) :=
  C8_unsupported_provider [("LLM_PROVIDER", "openai")]
    [("openai", ⟨some "openai", some "gpt-4", none, none⟩)] [] (by decide) (by decide)

/-- C1 (amended): the comparison pipeline performs no empty-corpus check
and defines no empty-corpus error: whenever `combine_documents` yields
the empty corpus, `compare_documents` still builds the inputs and
invokes the model chain, exactly once, on the empty corpus, and returns
the wrapped chain result. -/
theorem C1_no_empty_corpus_guard (chain : String → Except PyErr (List ChangeFormat))
    (session : List DirEntry) (h : combine_documents session = .ok "") :
    comparisonPipeline chain session
      = ([""], wrapErr "Error comparing estate documents" (chain "")) := by
  simp [comparisonPipeline, h, EstateDocumentComparatorLLM.compare_documents]

/-- C1: counterexample — on the empty session the combined corpus is
empty, yet the pipeline invokes the model chain (invocation trace
`[""]`) and returns its parsed result; it does not fail fast with an
empty-corpus error before the model call. -/
theorem C1_counterexample :
    combine_documents [] = .ok "" ∧
    comparisonPipeline (fun _ => .ok [⟨"1", "NO CHANGE"⟩]) []
      = ([""], .ok [⟨"1", "NO CHANGE"⟩]) := by
  decide

/-- C1: witness — the empty session with a failing chain: the model was
still invoked on the empty corpus. -/
theorem C1_no_empty_corpus_guard_witness :
    comparisonPipeline (fun _ => .error (.valueError "model failure")) []
      = ([""], wrapErr "Error comparing estate documents"
          ((fun _ => .error (.valueError "model failure")) "")) :=
  C1_no_empty_corpus_guard (fun _ => .error (.valueError "model failure")) [] (by decide)

/-- C2 (spec-modelled): on a raw response that fails the strict parse the
parser invokes the repair re-prompt exactly once — its repair trace is
exactly `[raw]`, so no second repair call occurs — and when the repaired
output also fails to parse, the propagated `SchemaParseError` carries
both the original raw text and the repair attempt text. -/
theorem C2_single_repair (strict : String → Except String (List ChangeFormat))
    (model : String → String) (raw : String)
    (h : (strict raw).isOk = false) :
    (fixingParserParse strict model raw).1 = [raw] ∧
    ((strict (model raw)).isOk = false →
      fixingParserParse strict model raw = ([raw], .error ⟨raw, model raw⟩)) := by
  cases hr : strict raw with
  | ok v => rw [hr] at h; simp [Except.isOk, Except.toBool] at h
  | error e =>
    constructor
    · cases hr2 : strict (model raw) <;> simp [fixingParserParse, hr, hr2]
    · intro h2
      cases hr2 : strict (model raw) with
      | ok v => rw [hr2] at h2; simp [Except.isOk, Except.toBool] at h2
      | error e2 => simp [fixingParserParse, hr, hr2]

/-- C2: witness — a strict parser accepting only `"[]"`, a repair model
that again returns unparseable text, and an unparseable raw input. -/
theorem C2_single_repair_witness :
    (fixingParserParse (fun s => if s == "[]" then .ok [] else .error "invalid json")
        (fun _ => "still broken") "not json").1 = ["not json"] ∧
    fixingParserParse (fun s => if s == "[]" then .ok [] else .error "invalid json")
        (fun _ => "still broken") "not json"
      = (["not json"], .error ⟨"not json", "still broken"⟩) := by
  have h := C2_single_repair (fun s => if s == "[]" then .ok [] else .error "invalid json")
    (fun _ => "still broken") "not json" (by decide)
  exact ⟨h.1, h.2 (by decide)⟩
